import Mathlib

/-!
Verification development for the Buzz Scoring Engine of
`src/Social Buzz Score/reddit-buzz-scraper.py`.

Modelling conventions (shallow embedding):
* Python floats are modelled as exact real numbers (`ℝ`); `math.log10` and
  `math.exp` as `Real.log x / Real.log 10` and `Real.exp`.  Float literals of
  the source (0.1, 0.25, 1.2, 0.7, 0.5, 0.3, -1.0, 8, 50.0) are carried as the
  exact rationals they denote.
* Wall-clock instants (`datetime.now(timezone.utc)` / `.timestamp()`) are an
  explicit parameter `now : ℚ` (seconds since the epoch, possibly fractional),
  held fixed exactly as §5 of the spec requires; integer Unix timestamps of
  the records are `ℤ`.
* `math.log10` raises `ValueError` on a non-positive argument, so every
  computation that can reach it is `Option`-valued: `none` models the raised
  exception, `some` the returned value.
* Python's `str.lower()` is modelled by `Char.toLower` character-wise (the
  ASCII case mapping, which agrees with Python on all keyword-relevant
  characters), and `kw in text` by substring containment over `List Char`.
* `round(x, n)` (banker's rounding of an exact value) is modelled exactly by
  `roundHalfEven` below.
* `int(n * 0.05)` / `int(n * 0.95)` over a list length `n` are modelled by
  the exact floors `n / 20` and `19 * n / 20` (natural division).
-/

namespace BuzzScraper

/-! ## Sentiment keywords and classifier (source lines 58-103) -/

/-- POSITIVE_KEYWORDS of the source, line 58. -/
def POSITIVE_KEYWORDS : List String :=
  ["breakout", "sleeper", "stash", "must-add", "must add", "call-up", "callup",
   "promoted", "raking", "mashing", "filthy", "ace", "stud", "league winner",
   "add now", "get him", "fire", "elite", "dominant", "nasty", "underrated"]

/-- NEGATIVE_KEYWORDS of the source, line 64 (note the two upper-case entries). -/
def NEGATIVE_KEYWORDS : List String :=
  ["injured", "injury", "IL", "surgery", "torn", "struggling", "demoted",
   "bust", "avoid", "drop", "overrated", "overhyped", "disappointing",
   "setback", "shut down", "out for", "DL"]

/-- Substring containment over character lists: Python's `needle in haystack`. -/
def isSubstrChars : List Char → List Char → Bool
  | needle, [] => needle.isEmpty
  | needle, c :: rest => needle.isPrefixOf (c :: rest) || isSubstrChars needle rest

/-- Lower-casing of a text blob: Python's `text.lower()` character-wise. -/
def pyLower (text : List Char) : List Char := text.map Char.toLower

/-- Number of keywords of `kws` contained in `textLower`:
`sum(1 for kw in kws if kw in text_lower)` of the source, lines 97-98. -/
def kwCount (kws : List String) (textLower : List Char) : ℕ :=
  kws.countP fun kw => isSubstrChars kw.data textLower

/-- The shared keyword sentiment classifier `analyze_sentiment`, source
lines 92-103, including the early return on empty (falsy) text. -/
def analyze_sentiment (text : String) : String :=
  if text.data.isEmpty then "neutral"
  else
    let textLower := pyLower text.data
    let posCount := kwCount POSITIVE_KEYWORDS textLower
    let negCount := kwCount NEGATIVE_KEYWORDS textLower
    if posCount < negCount then "negative"
    else if negCount < posCount then "positive"
    else "neutral"

/-- The negative keyword list with the two upper-case entries removed
(claim C9's comparison list). -/
def NEGATIVE_KEYWORDS_LOWER : List String :=
  ["injured", "injury", "surgery", "torn", "struggling", "demoted",
   "bust", "avoid", "drop", "overrated", "overhyped", "disappointing",
   "setback", "shut down", "out for"]

/-- The classifier recomputed with `NEGATIVE_KEYWORDS_LOWER` in place of
`NEGATIVE_KEYWORDS`; otherwise identical to `analyze_sentiment`. -/
def analyze_sentiment_reduced (text : String) : String :=
  if text.data.isEmpty then "neutral"
  else
    let textLower := pyLower text.data
    let posCount := kwCount POSITIVE_KEYWORDS textLower
    let negCount := kwCount NEGATIVE_KEYWORDS_LOWER textLower
    if posCount < negCount then "negative"
    else if negCount < posCount then "positive"
    else "neutral"

/-! ### Character-level facts used for C9 -/

theorem char_toNat_ofNat_of_valid {n : ℕ} (h : n.isValidChar) :
    (Char.ofNat n).toNat = n := by
  rw [Char.ofNat, dif_pos h]
  rfl

/-- The ASCII lower-casing never produces an upper-case basic latin letter. -/
theorem toLower_ne_of_upper (c k : Char) (h1 : 65 ≤ k.toNat) (h2 : k.toNat ≤ 90) :
    Char.toLower c ≠ k := by
  intro he
  have hnat : (Char.toLower c).toNat = k.toNat := by rw [he]
  unfold Char.toLower at hnat
  by_cases hc : c.toNat ≥ 65 ∧ c.toNat ≤ 90
  · rw [if_pos hc] at hnat
    have hv : (c.toNat + 32).isValidChar := Or.inl (by omega)
    rw [char_toNat_ofNat_of_valid hv] at hnat
    omega
  · rw [if_neg hc] at hnat
    omega

theorem not_mem_pyLower_of_upper (k : Char) (h1 : 65 ≤ k.toNat) (h2 : k.toNat ≤ 90)
    (text : List Char) : k ∉ pyLower text := by
  intro hk
  rcases List.mem_map.mp hk with ⟨c, _, hc⟩
  exact toLower_ne_of_upper c k h1 h2 hc

/-- A needle whose head is absent from the haystack is not a substring. -/
theorem isSubstrChars_eq_false_of_head_not_mem (c : Char) (needle : List Char) :
    ∀ hay : List Char, c ∉ hay → isSubstrChars (c :: needle) hay = false := by
  intro hay
  induction hay with
  | nil => intro _; rfl
  | cons h t ih =>
    intro hmem
    have hne : c ≠ h := fun he => hmem (he ▸ List.mem_cons_self h t)
    have hpre : (c :: needle).isPrefixOf (h :: t) = false := by
      simp [List.isPrefixOf, hne]
    simp only [isSubstrChars, hpre, Bool.false_or]
    exact ih fun hc => hmem (List.mem_cons_of_mem h hc)

/-- C4: the classifier lower-cases the text, counts keyword containment on the
fixed positive and negative lists, and returns negative / positive / neutral
by comparing the counts, with empty or keyword-free text yielding neutral. -/
theorem c4_sentiment_contract : ∀ text : String,
    analyze_sentiment text =
      if kwCount POSITIVE_KEYWORDS (pyLower text.data) <
          kwCount NEGATIVE_KEYWORDS (pyLower text.data) then "negative"
      else if kwCount NEGATIVE_KEYWORDS (pyLower text.data) <
          kwCount POSITIVE_KEYWORDS (pyLower text.data) then "positive"
      else "neutral" := by
  intro text
  unfold analyze_sentiment
  cases htext : text.data with
  | nil => decide
  | cons c cs => rfl

/-- C9: classification is independent of the upper-case negative-keyword
entries IL and DL, because lower-cased text never contains an upper-case
basic latin letter, so those two keywords never match. -/
theorem c9_uppercase_keywords_inert :
    NEGATIVE_KEYWORDS_LOWER = (NEGATIVE_KEYWORDS.erase "IL").erase "DL" ∧
      ∀ text : String, analyze_sentiment text = analyze_sentiment_reduced text := by
  constructor
  · decide
  intro text
  have hIL : isSubstrChars ("IL").data (pyLower text.data) = false :=
    isSubstrChars_eq_false_of_head_not_mem 'I' ['L'] _
      (not_mem_pyLower_of_upper 'I' (by decide) (by decide) text.data)
  have hDL : isSubstrChars ("DL").data (pyLower text.data) = false :=
    isSubstrChars_eq_false_of_head_not_mem 'D' ['L'] _
      (not_mem_pyLower_of_upper 'D' (by decide) (by decide) text.data)
  have hcnt : kwCount NEGATIVE_KEYWORDS (pyLower text.data) =
      kwCount NEGATIVE_KEYWORDS_LOWER (pyLower text.data) := by
    simp only [kwCount, NEGATIVE_KEYWORDS, NEGATIVE_KEYWORDS_LOWER,
      List.countP_cons, List.countP_nil, hIL, hDL]
    norm_num
  unfold analyze_sentiment analyze_sentiment_reduced
  simp only [hcnt]

/-! ## Data classes (source lines 110-165) and algorithm parameters (lines 70-89) -/

noncomputable section

/-- DECAY_LAMBDA = 0.1, source line 71. -/
def DECAY_LAMBDA : ℝ := 1/10

/-- MAX_SINGLE_POST_CONTRIBUTION = 0.25, source line 73. -/
def MAX_SINGLE_POST_CONTRIBUTION : ℝ := 1/4

/-- NEWS_BASE_POINTS = 8, source line 85. -/
def NEWS_BASE_POINTS : ℝ := 8

/-- NEWS_SENTIMENT_POSITIVE = 1.2, source line 86. -/
def NEWS_SENTIMENT_POSITIVE : ℝ := 12/10

/-- NEWS_SENTIMENT_NEGATIVE = -1.0, source line 87. -/
def NEWS_SENTIMENT_NEGATIVE : ℝ := -1

/-- NEWS_SENTIMENT_NEUTRAL = 0.3, source line 88. -/
def NEWS_SENTIMENT_NEUTRAL : ℝ := 3/10

/-- MAX_SINGLE_NEWS_CONTRIBUTION = 0.25, source line 89. -/
def MAX_SINGLE_NEWS_CONTRIBUTION : ℝ := 1/4

/-- SUBREDDITS.get(name, 1.0): the weight table of source line 50 with the
dict-lookup default 1.0 of source line 385. -/
def SUBREDDITS_get (s : String) : ℝ :=
  if s = "fantasybaseball" then 3/2
  else if s = "MLBProspects" then 13/10
  else if s = "MinorLeagueBaseball" then 12/10
  else if s = "baseball" then 1
  else 1

/-- A single Reddit mention, source line 123. -/
structure Mention where
  id : String
  subreddit : String
  type : String
  title : String
  text : String
  score : ℤ
  num_comments : ℕ
  created_utc : ℤ
  url : String
  sentiment : String
  confidence : ℝ
  contribution : ℝ := 0

/-- A news article, source line 110. -/
structure NewsArticle where
  title : String
  url : String
  source : String
  published_at : String
  published_ts : ℤ
  description : String
  sentiment : String := "neutral"
  contribution : ℝ := 0

/-- A tracked prospect, source line 140. -/
structure Prospect where
  id : String
  first_name : String
  last_name : String
  team : String
  position : String := ""
  aliases : List String := []

/-- The per-prospect scoring output, source line 151.  `last_updated` keeps
the `now` instant instead of its ISO string rendering. -/
structure BuzzResult where
  prospect_id : String
  name : String
  team : String
  buzz_score : ℝ
  raw_buzz : ℝ
  mention_count_7d : ℕ
  mention_count_30d : ℕ
  days_with_mentions : ℕ
  negative_ratio : ℝ
  mentions : List Mention
  news_articles : List NewsArticle
  last_updated : ℚ

/-! ## BuzzCalculator.calculate_raw_buzz (source lines 370-400) -/

/-- Python's `math.log10` on its domain. -/
def log10 (x : ℝ) : ℝ := Real.log x / Real.log 10

/-- `(now - mention_time).days`: floor of the age in days (negative for a
mention created after `now`). -/
def mentionDaysOld (now : ℚ) (created_utc : ℤ) : ℤ :=
  ⌊(now - (created_utc : ℚ)) / 86400⌋

/-- `math.exp(-DECAY_LAMBDA * days_old)` for a mention, source line 390. -/
def mentionDecay (now : ℚ) (created_utc : ℤ) : ℝ :=
  Real.exp (-DECAY_LAMBDA * (mentionDaysOld now created_utc : ℝ))

/-- Base points by mention type with dict default 2, source line 377. -/
def basePoints (t : String) : ℝ :=
  if t = "title" then 10 else if t = "body" then 5 else if t = "comment" then 2 else 2

/-- Mention sentiment modifier with dict default 1.0, source line 393. -/
def sentimentMod (s : String) : ℝ :=
  if s = "positive" then 12/10
  else if s = "negative" then 7/10
  else if s = "neutral" then 1
  else 1

/-- One mention's contribution, source lines 376-397.  `math.log10(1 + score)`
raises ValueError when `1 + score ≤ 0` (the source has no clamp), modelled as
`none`; the guard is stated over `ℚ`, where it is decidable and coincides
with the float comparison. -/
def mentionContribution (now : ℚ) (m : Mention) : Option ℝ :=
  if 1 + (m.score : ℚ) ≤ 0 then none
  else
    let engagement := 1 + log10 (1 + (m.score : ℝ))
    let engagement :=
      if 0 < m.num_comments then engagement + 1/2 * log10 (1 + (m.num_comments : ℝ))
      else engagement
    some (basePoints m.type * engagement * SUBREDDITS_get m.subreddit *
      mentionDecay now m.created_utc * sentimentMod m.sentiment * m.confidence)

/-- `calculate_raw_buzz`: per-mention contributions (written back onto the
mentions in the source, returned as a parallel list here) and their running
total.  `none` models the uncaught ValueError from `math.log10`. -/
def calculate_raw_buzz (now : ℚ) : List Mention → Option (List ℝ × ℝ)
  | [] => some ([], 0)
  | m :: rest =>
    match mentionContribution now m, calculate_raw_buzz now rest with
    | some c, some (cs, total) => some (c :: cs, c + total)
    | _, _ => none

/-! ## BuzzCalculator.calculate_news_contribution (source lines 402-435) -/

/-- The 30-day window cutoff `now.timestamp() - 30*24*3600`, source line 405. -/
def cutoff30 (now : ℚ) : ℚ := now - 30 * 24 * 3600

/-- News sentiment modifier with dict default NEWS_SENTIMENT_NEUTRAL,
source lines 406-410 and 417. -/
def newsSentimentMod (s : String) : ℝ :=
  if s = "positive" then NEWS_SENTIMENT_POSITIVE
  else if s = "negative" then NEWS_SENTIMENT_NEGATIVE
  else if s = "neutral" then NEWS_SENTIMENT_NEUTRAL
  else NEWS_SENTIMENT_NEUTRAL

/-- Fractional age in days of a news article, source line 415. -/
def newsDaysOld (now : ℚ) (ts : ℤ) : ℚ := (now - (ts : ℚ)) / (24 * 3600)

/-- One article's (pre-cap) contribution, source lines 415-418. -/
def newsContribution1 (now : ℚ) (a : NewsArticle) : ℝ :=
  NEWS_BASE_POINTS * Real.exp (-DECAY_LAMBDA * (newsDaysOld now a.published_ts : ℝ)) *
    newsSentimentMod a.sentiment

/-- The first loop of `calculate_news_contribution` (source lines 411-420):
skip articles older than the window, store each remaining article's
contribution on it and accumulate the total. -/
def newsPass1 (now : ℚ) : List NewsArticle → List NewsArticle × ℝ
  | [] => ([], 0)
  | a :: rest =>
    let out := newsPass1 now rest
    if (a.published_ts : ℚ) < cutoff30 now then (a :: out.1, out.2)
    else
      let c := newsContribution1 now a
      ({a with contribution := c} :: out.1, c + out.2)

/-- The capping loop of `calculate_news_contribution` (source lines 424-434):
`cap` is fixed from the pre-cap total, the running total is adjusted by each
clamped article's excess. -/
def newsCapLoop (cutoff : ℚ) (cap : ℝ) : List NewsArticle → ℝ → List NewsArticle × ℝ
  | [], total => ([], total)
  | a :: rest, total =>
    if (a.published_ts : ℚ) < cutoff then
      let out := newsCapLoop cutoff cap rest total
      (a :: out.1, out.2)
    else if cap < |a.contribution| then
      let excess := |a.contribution| - cap
      let total1 := if a.contribution < 0 then total + excess else total - excess
      let a1 : NewsArticle := {a with contribution := if 0 < a.contribution then cap else -cap}
      let out := newsCapLoop cutoff cap rest total1
      (a1 :: out.1, out.2)
    else
      let out := newsCapLoop cutoff cap rest total
      (a :: out.1, out.2)

open Classical in
/-- `calculate_news_contribution`: first loop, then the cap loop guarded by
`if news_articles and total != 0` (source line 422). -/
def calculate_news_contribution (now : ℚ) (articles : List NewsArticle) :
    List NewsArticle × ℝ :=
  let fst := newsPass1 now articles
  if articles ≠ [] ∧ fst.2 ≠ 0 then
    newsCapLoop (cutoff30 now) (|fst.2| * MAX_SINGLE_NEWS_CONTRIBUTION) fst.1 fst.2
  else fst

/-! ## BuzzCalculator.normalize_score (source lines 437-454) -/

/-- `normalize_score`: percentile-bounded linear rescaling to [0, 100] with
the short-list fallback and the degenerate-distribution constant 50. -/
def normalize_score (rawBuzz : ℝ) (allScores : List ℝ) : ℝ :=
  if allScores.length < 2 then min 100 (max 0 rawBuzz)
  else
    let sortedScores := List.insertionSort (· ≤ ·) allScores
    let p5idx := max 0 (allScores.length / 20)
    let p95idx := min (allScores.length - 1) (19 * allScores.length / 20)
    let p5 := sortedScores.getD p5idx 0
    let p95 := sortedScores.getD p95idx 0
    if p95 = p5 then 50
    else min 100 (max 0 ((rawBuzz - p5) / (p95 - p5) * 100))

/-! ## BuzzCalculator.calculate_buzz_result (source lines 456-516) and the
two-pass batch protocol of main (source lines 634-651) -/

/-- Python's `round(y)` on an exact value: round half to even. -/
def roundHalfEven (y : ℝ) : ℤ :=
  if y - (⌊y⌋ : ℝ) < 1/2 then ⌊y⌋
  else if y - (⌊y⌋ : ℝ) = 1/2 then (if Even ⌊y⌋ then ⌊y⌋ else ⌊y⌋ + 1)
  else ⌊y⌋ + 1

/-- Python's `round(x, ndigits)` on an exact value. -/
def pyRound (x : ℝ) (ndigits : ℕ) : ℝ :=
  (roundHalfEven (x * 10 ^ ndigits) : ℝ) / 10 ^ ndigits

/-- The mention outlier cap, source lines 477-481: executed only when the
mention list (equivalently its contribution list) is non-empty. -/
def applyMentionCap (contributions : List ℝ) (total : ℝ) : ℝ :=
  match contributions.maximum with
  | none => total
  | some maxContribution =>
    if total * MAX_SINGLE_POST_CONTRIBUTION < maxContribution then
      total - (maxContribution - total * MAX_SINGLE_POST_CONTRIBUTION)
    else total

/-- Python truthiness of the `all_scores` parameter (default None), source
line 488: `if all_scores:` is false for None and for the empty list. -/
def pyTruthy (allScores : Option (List ℝ)) : Bool :=
  match allScores with
  | none => false
  | some l => !l.isEmpty

/-- `calculate_buzz_result`, source lines 456-516.  `none` models the
uncaught ValueError propagating out of `calculate_raw_buzz`. -/
def calculate_buzz_result (prospect : Prospect) (mentions : List Mention)
    (allScores : Option (List ℝ)) (newsArticles : List NewsArticle) (now : ℚ) :
    Option BuzzResult :=
  let mentions30 := mentions.filter fun m => cutoff30 now ≤ (m.created_utc : ℚ)
  let mentions7 := mentions.filter fun m => now - 7 * 24 * 3600 ≤ (m.created_utc : ℚ)
  match calculate_raw_buzz now mentions30 with
  | none => none
  | some (contributions, total) =>
    let rawBuzzReddit := applyMentionCap contributions total
    let news := calculate_news_contribution now newsArticles
    let rawBuzz := rawBuzzReddit + news.2
    let buzzScore :=
      if pyTruthy allScores then normalize_score rawBuzz (allScores.getD [])
      else min 100 (rawBuzz / 2)
    let uniqueDays := ((mentions30.map fun m => m.created_utc.fdiv 86400).dedup).length
    let negativeCount := (mentions30.filter fun m => m.sentiment = "negative").length
    let negativeRatio :=
      if mentions30.isEmpty then 0 else (negativeCount : ℝ) / (mentions30.length : ℝ)
    some {
      prospect_id := prospect.id
      name := prospect.first_name ++ " " ++ prospect.last_name
      team := prospect.team
      buzz_score := pyRound buzzScore 1
      raw_buzz := pyRound rawBuzz 2
      mention_count_7d := mentions7.length
      mention_count_30d := mentions30.length
      days_with_mentions := uniqueDays
      negative_ratio := pyRound negativeRatio 2
      mentions := (mentions30.zip contributions).map fun mc => {mc.1 with contribution := mc.2}
      news_articles := news.1
      last_updated := now }

/-- Pass 1 of the batch protocol (main, source lines 634-637): the raw score
collected into the peer batch — `calculate_raw_buzz` over the full mention
list plus the news contribution, with no window filter and no mention cap. -/
def pass1Raw (now : ℚ) (mentions : List Mention) (newsArticles : List NewsArticle) :
    Option ℝ :=
  match calculate_raw_buzz now mentions with
  | none => none
  | some (_, rawReddit) => some (rawReddit + (calculate_news_contribution now newsArticles).2)

end

/-! ## Helper lemmas about the contribution factors -/

theorem log10_nonneg {x : ℝ} (hx : 1 ≤ x) : 0 ≤ log10 x :=
  div_nonneg (Real.log_nonneg hx) (Real.log_nonneg (by norm_num))

theorem basePoints_pos (t : String) : 0 < basePoints t := by
  unfold basePoints; split_ifs <;> norm_num

theorem SUBREDDITS_get_pos (s : String) : 0 < SUBREDDITS_get s := by
  unfold SUBREDDITS_get; split_ifs <;> norm_num

theorem sentimentMod_pos (s : String) : 0 < sentimentMod s := by
  unfold sentimentMod; split_ifs <;> norm_num

theorem mentionContribution_nonneg (now : ℚ) (m : Mention) (hconf : 0 ≤ m.confidence)
    {c : ℝ} (h : mentionContribution now m = some c) : 0 ≤ c := by
  by_cases hguard : 1 + (m.score : ℚ) ≤ 0
  · rw [mentionContribution, if_pos hguard] at h
    simp at h
  rw [mentionContribution, if_neg hguard] at h
  simp only [Option.some.injEq] at h
  push_neg at hguard
  have hscore : (0 : ℤ) ≤ m.score := by
    have h1 : (-1 : ℚ) < (m.score : ℚ) := by linarith
    have h2 : (-1 : ℤ) < m.score := by exact_mod_cast h1
    omega
  have harg : (1 : ℝ) ≤ 1 + (m.score : ℝ) := by
    have : (0 : ℝ) ≤ (m.score : ℝ) := by exact_mod_cast hscore
    linarith
  have heng : (0 : ℝ) ≤ 1 + log10 (1 + (m.score : ℝ)) := by
    have := log10_nonneg harg
    linarith
  have heng2 : (0 : ℝ) ≤
      (if 0 < m.num_comments then
        (1 + log10 (1 + (m.score : ℝ))) + 1/2 * log10 (1 + (m.num_comments : ℝ))
      else 1 + log10 (1 + (m.score : ℝ))) := by
    split_ifs with hnc
    · have hnc1 : (1 : ℝ) ≤ 1 + (m.num_comments : ℝ) := by
        have h0 : (0 : ℝ) ≤ (m.num_comments : ℝ) := by positivity
        linarith
      have := log10_nonneg hnc1
      linarith
    · exact heng
  rw [← h]
  have hb := le_of_lt (basePoints_pos m.type)
  have hw := le_of_lt (SUBREDDITS_get_pos m.subreddit)
  have hs := le_of_lt (sentimentMod_pos m.sentiment)
  have hdec : (0 : ℝ) ≤ mentionDecay now m.created_utc := le_of_lt (Real.exp_pos _)
  exact mul_nonneg (mul_nonneg (mul_nonneg (mul_nonneg
    (mul_nonneg hb heng2) hw) hdec) hs) hconf

theorem calculate_raw_buzz_sum (now : ℚ) :
    ∀ (ms : List Mention) (cs : List ℝ) (t : ℝ),
      calculate_raw_buzz now ms = some (cs, t) → t = cs.sum := by
  intro ms
  induction ms with
  | nil =>
    intro cs t h
    simp only [calculate_raw_buzz, Option.some.injEq, Prod.mk.injEq] at h
    rw [← h.1, ← h.2]
    simp
  | cons m rest ih =>
    intro cs t h
    simp only [calculate_raw_buzz] at h
    cases hc : mentionContribution now m with
    | none => rw [hc] at h; simp at h
    | some c =>
      cases hr : calculate_raw_buzz now rest with
      | none => rw [hc, hr] at h; simp at h
      | some p =>
        obtain ⟨cs', t'⟩ := p
        rw [hc, hr] at h
        simp only [Option.some.injEq, Prod.mk.injEq] at h
        rw [← h.1, ← h.2, List.sum_cons, ih cs' t' hr]

theorem calculate_raw_buzz_nonneg (now : ℚ) :
    ∀ (ms : List Mention) (cs : List ℝ) (t : ℝ),
      (∀ m ∈ ms, 0 ≤ m.confidence) → calculate_raw_buzz now ms = some (cs, t) →
      ∀ c ∈ cs, 0 ≤ c := by
  intro ms
  induction ms with
  | nil =>
    intro cs t _ h
    simp only [calculate_raw_buzz, Option.some.injEq, Prod.mk.injEq] at h
    rw [← h.1]
    simp
  | cons m rest ih =>
    intro cs t hconf h
    simp only [calculate_raw_buzz] at h
    cases hc : mentionContribution now m with
    | none => rw [hc] at h; simp at h
    | some c =>
      cases hr : calculate_raw_buzz now rest with
      | none => rw [hc, hr] at h; simp at h
      | some p =>
        obtain ⟨cs', t'⟩ := p
        rw [hc, hr] at h
        simp only [Option.some.injEq, Prod.mk.injEq] at h
        rw [← h.1]
        intro x hx
        rcases List.mem_cons.mp hx with hx1 | hx2
        · rw [hx1]
          exact mentionContribution_nonneg now m (hconf m (List.mem_cons_self m rest)) hc
        · exact ih cs' t' (fun m' hm' => hconf m' (List.mem_cons_of_mem m hm')) hr x hx2

/-! ## Claim C1: the engagement multiplier is not total -/

/-- A mention with one downvote: net score -1, a value Reddit posts do take. -/
noncomputable def crashMention : Mention where
  id := "c1"
  subreddit := "baseball"
  type := "title"
  title := ""
  text := ""
  score := -1
  num_comments := 0
  created_utc := 1000000
  url := ""
  sentiment := "neutral"
  confidence := 1

/-- C1: the code has no clamp before `math.log10(1 + score)`; a mention with
engagement score -1 makes the argument 0 and the whole raw-buzz computation
fails (ValueError), refuting the claimed totality. -/
theorem c1_engagement_log_crash : calculate_raw_buzz 1000000 [crashMention] = none := by
  norm_num [calculate_raw_buzz, mentionContribution, crashMention]

/-! ## Claim C5: future-dated mentions are not clamped to days_old = 0 -/

/-- C5 counterexample: a mention created exactly one day after `now` gets
`days_old = -1` (not 0) and decay `exp(0.1) ≠ 1`. -/
theorem c5_future_decay_cex :
    mentionDaysOld 0 86400 = -1 ∧ mentionDecay 0 86400 ≠ 1 := by
  have hd : mentionDaysOld 0 86400 = -1 := by
    have hq : ((0 : ℚ) - ((86400 : ℤ) : ℚ)) / 86400 = ((-1 : ℤ) : ℚ) := by norm_num
    rw [mentionDaysOld, hq, Int.floor_intCast]
  refine ⟨hd, ?_⟩
  rw [mentionDecay, hd, Ne, Real.exp_eq_one_iff]
  norm_num [DECAY_LAMBDA]

/-- C5 amended: a mention whose `created_utc` lies strictly in the future of
`now` gets a negative `days_old` (at most -1), so its decay factor exceeds 1
(the code boosts future-dated items instead of clamping `days_old` to 0). -/
theorem c5_future_decay_amended (now : ℚ) (created_utc : ℤ)
    (h : now < (created_utc : ℚ)) :
    mentionDaysOld now created_utc ≤ -1 ∧ 1 < mentionDecay now created_utc := by
  have hneg : (now - (created_utc : ℚ)) / 86400 < 0 :=
    div_neg_of_neg_of_pos (by linarith) (by norm_num)
  have hd : mentionDaysOld now created_utc ≤ -1 := by
    have h0 : ⌊(now - (created_utc : ℚ)) / 86400⌋ < 0 :=
      Int.floor_lt.mpr (by exact_mod_cast hneg)
    rw [mentionDaysOld]
    omega
  refine ⟨hd, ?_⟩
  rw [mentionDecay, Real.one_lt_exp_iff, DECAY_LAMBDA]
  have hcast : ((mentionDaysOld now created_utc : ℤ) : ℝ) ≤ -1 := by exact_mod_cast hd
  linarith

/-- C5 witness: the amended statement evaluated at `now = 10`,
`created_utc = 86400`. -/
theorem c5_future_decay_witness :
    mentionDaysOld 10 86400 ≤ -1 ∧ 1 < mentionDecay 10 86400 :=
  c5_future_decay_amended 10 86400 (by norm_num)

/-! ## Claim C8: the news cap keeps per-article contributions and the total
consistent -/

/-- Sum of the stored contributions of the non-excluded (in-window) articles. -/
noncomputable def includedContribSum (cutoff : ℚ) (arts : List NewsArticle) : ℝ :=
  ((arts.filter fun a => cutoff ≤ (a.published_ts : ℚ)).map fun a => a.contribution).sum

theorem includedContribSum_nil (cutoff : ℚ) : includedContribSum cutoff [] = 0 := by
  simp [includedContribSum]

theorem includedContribSum_cons_excluded {cutoff : ℚ} {a : NewsArticle}
    (h : (a.published_ts : ℚ) < cutoff) (l : List NewsArticle) :
    includedContribSum cutoff (a :: l) = includedContribSum cutoff l := by
  simp [includedContribSum, List.filter_cons, not_le.mpr h]

theorem includedContribSum_cons_included {cutoff : ℚ} {a : NewsArticle}
    (h : cutoff ≤ (a.published_ts : ℚ)) (l : List NewsArticle) :
    includedContribSum cutoff (a :: l) = a.contribution + includedContribSum cutoff l := by
  simp [includedContribSum, List.filter_cons, h]

theorem newsPass1_total (now : ℚ) : ∀ arts : List NewsArticle,
    (newsPass1 now arts).2 = includedContribSum (cutoff30 now) (newsPass1 now arts).1 := by
  intro arts
  induction arts with
  | nil => simp [newsPass1, includedContribSum]
  | cons a rest ih =>
    by_cases h : (a.published_ts : ℚ) < cutoff30 now
    · simp only [newsPass1, if_pos h]
      rw [includedContribSum_cons_excluded h]
      exact ih
    · push_neg at h
      simp only [newsPass1, if_neg (not_lt.mpr h)]
      rw [includedContribSum_cons_included
        (show cutoff30 now ≤
          (({a with contribution := newsContribution1 now a} : NewsArticle).published_ts : ℚ)
          from h)]
      rw [← ih]

theorem newsCapLoop_total (cutoff : ℚ) (cap : ℝ) (hcap : 0 ≤ cap) :
    ∀ (arts : List NewsArticle) (total : ℝ),
      (newsCapLoop cutoff cap arts total).2 =
        total + includedContribSum cutoff (newsCapLoop cutoff cap arts total).1 -
          includedContribSum cutoff arts := by
  intro arts
  induction arts with
  | nil => intro total; simp [newsCapLoop, includedContribSum]
  | cons a rest ih =>
    intro total
    by_cases h1 : (a.published_ts : ℚ) < cutoff
    · simp only [newsCapLoop, if_pos h1]
      rw [includedContribSum_cons_excluded h1, includedContribSum_cons_excluded h1]
      exact ih total
    · push_neg at h1
      by_cases h2 : cap < |a.contribution|
      · simp only [newsCapLoop, if_neg (not_lt.mpr h1), if_pos h2]
        by_cases h3 : a.contribution < 0
        · simp only [if_pos h3, if_neg (not_lt.mpr (le_of_lt h3))]
          rw [includedContribSum_cons_included
            (show cutoff ≤ (({a with contribution := -cap} : NewsArticle).published_ts : ℚ) from h1)]
          rw [includedContribSum_cons_included h1]
          rw [ih (total + (|a.contribution| - cap))]
          rw [abs_of_neg h3]
          ring
        · push_neg at h3
          have h0 : 0 < a.contribution := lt_of_le_of_lt hcap (by rwa [abs_of_nonneg h3] at h2)
          simp only [if_neg (not_lt.mpr h3), if_pos h0]
          rw [includedContribSum_cons_included
            (show cutoff ≤ (({a with contribution := cap} : NewsArticle).published_ts : ℚ) from h1)]
          rw [includedContribSum_cons_included h1]
          rw [ih (total - (|a.contribution| - cap))]
          rw [abs_of_nonneg h3]
          ring
      · simp only [newsCapLoop, if_neg (not_lt.mpr h1), if_neg h2]
        rw [includedContribSum_cons_included h1, includedContribSum_cons_included h1]
        rw [ih total]
        ring

/-- C8: after news outlier capping, the returned aggregate equals the sum of
the stored contributions of the non-excluded articles — every clamp adjusts
the running total by exactly the clamped article's excess. -/
theorem c8_news_total_consistent (now : ℚ) (articles : List NewsArticle) :
    (calculate_news_contribution now articles).2 =
      includedContribSum (cutoff30 now) (calculate_news_contribution now articles).1 := by
  by_cases h : articles ≠ [] ∧ (newsPass1 now articles).2 ≠ 0
  · simp only [calculate_news_contribution, if_pos h]
    have hcap : (0 : ℝ) ≤ |(newsPass1 now articles).2| * MAX_SINGLE_NEWS_CONTRIBUTION :=
      mul_nonneg (abs_nonneg _) (by norm_num [MAX_SINGLE_NEWS_CONTRIBUTION])
    rw [newsCapLoop_total (cutoff30 now) _ hcap (newsPass1 now articles).1
      (newsPass1 now articles).2]
    rw [← newsPass1_total now articles]
    ring
  · simp only [calculate_news_contribution, if_neg h]
    exact newsPass1_total now articles

/-! ## Claim C6: normalize_score is monotone and bounded -/

theorem sorted_getD_mono (l : List ℝ) {i j : ℕ} (hij : i ≤ j) (hj : j < l.length) :
    (List.insertionSort (· ≤ ·) l).getD i 0 ≤ (List.insertionSort (· ≤ ·) l).getD j 0 := by
  have hlen : (List.insertionSort (· ≤ ·) l).length = l.length :=
    (List.perm_insertionSort (· ≤ ·) l).length_eq
  have hi' : i < (List.insertionSort (· ≤ ·) l).length := by omega
  have hj' : j < (List.insertionSort (· ≤ ·) l).length := by omega
  rw [List.getD_eq_get _ _ hi', List.getD_eq_get _ _ hj']
  exact List.Sorted.rel_get_of_le (List.sorted_insertionSort (· ≤ ·) l)
    (show (⟨i, hi'⟩ : Fin _) ≤ ⟨j, hj'⟩ from hij)

theorem normalize_score_nonneg (x : ℝ) (l : List ℝ) : 0 ≤ normalize_score x l := by
  simp only [normalize_score]
  split_ifs with h1 h2
  · exact le_min (by norm_num) (le_max_left 0 x)
  · norm_num
  · exact le_min (by norm_num) (le_max_left _ _)

theorem normalize_score_le_100 (x : ℝ) (l : List ℝ) : normalize_score x l ≤ 100 := by
  simp only [normalize_score]
  split_ifs with h1 h2
  · exact min_le_left _ _
  · norm_num
  · exact min_le_left _ _

theorem normalize_score_mono (l : List ℝ) {x y : ℝ} (hxy : x ≤ y) :
    normalize_score x l ≤ normalize_score y l := by
  simp only [normalize_score]
  split_ifs with h1 h2
  · exact min_le_min le_rfl (max_le_max le_rfl hxy)
  · exact le_rfl
  · have hn : 2 ≤ l.length := by omega
    have hij : max 0 (l.length / 20) ≤ min (l.length - 1) (19 * l.length / 20) := by omega
    have hj : min (l.length - 1) (19 * l.length / 20) < l.length := by omega
    have hp : (List.insertionSort (· ≤ ·) l).getD (max 0 (l.length / 20)) 0 ≤
        (List.insertionSort (· ≤ ·) l).getD (min (l.length - 1) (19 * l.length / 20)) 0 :=
      sorted_getD_mono l hij hj
    have hlt : (List.insertionSort (· ≤ ·) l).getD (max 0 (l.length / 20)) 0 <
        (List.insertionSort (· ≤ ·) l).getD (min (l.length - 1) (19 * l.length / 20)) 0 :=
      lt_of_le_of_ne hp (fun he => h2 he.symm)
    refine min_le_min le_rfl (max_le_max le_rfl ?_)
    have hpos : (0 : ℝ) <
        (List.insertionSort (· ≤ ·) l).getD (min (l.length - 1) (19 * l.length / 20)) 0 -
          (List.insertionSort (· ≤ ·) l).getD (max 0 (l.length / 20)) 0 := by linarith
    refine mul_le_mul_of_nonneg_right ?_ (by norm_num)
    exact (div_le_div_right hpos).mpr (by linarith)

/-- C6: for every fixed peer list, `normalize_score` is monotonically
non-decreasing in its first argument, and its value always lies in [0, 100]. -/
theorem c6_normalize_mono_bounded (peers : List ℝ) (x y : ℝ) (hxy : x ≤ y) :
    normalize_score x peers ≤ normalize_score y peers ∧
      (0 ≤ normalize_score x peers ∧ normalize_score x peers ≤ 100) :=
  ⟨normalize_score_mono peers hxy, normalize_score_nonneg x peers, normalize_score_le_100 x peers⟩

/-- C6 witness: the theorem applied at `x = 1`, `y = 2`, `peers = [3, 4, 5]`. -/
theorem c6_normalize_witness :
    normalize_score 1 [3, 4, 5] ≤ normalize_score 2 [3, 4, 5] ∧
      (0 ≤ normalize_score 1 [3, 4, 5] ∧ normalize_score 1 [3, 4, 5] ≤ 100) :=
  c6_normalize_mono_bounded [3, 4, 5] 1 2 (by norm_num)

/-! ## Claim C7: outlier capping vs. aggregate magnitude -/

/-- C7 amended: the mention cap never increases the (non-negative) mention
aggregate, and lowers it exactly when the largest single contribution exceeds
cap_fraction times the total; the news cap, by contrast, can increase the
magnitude of its aggregate (see the counterexample). -/
theorem c7_mention_cap_amended (now : ℚ) (ms : List Mention) (cs : List ℝ) (t : ℝ)
    (hconf : ∀ m ∈ ms, 0 ≤ m.confidence)
    (h : calculate_raw_buzz now ms = some (cs, t)) :
    |applyMentionCap cs t| ≤ |t| ∧ applyMentionCap cs t ≤ t ∧
      (applyMentionCap cs t < t ↔
        ∃ m0, cs.maximum = some m0 ∧ t * MAX_SINGLE_POST_CONTRIBUTION < m0) := by
  have hsum := calculate_raw_buzz_sum now ms cs t h
  have hnn := calculate_raw_buzz_nonneg now ms cs t hconf h
  have ht : 0 ≤ t := by
    rw [hsum]
    exact List.sum_nonneg hnn
  unfold applyMentionCap
  rcases hmax : cs.maximum with _ | m0
  · refine ⟨le_refl _, le_refl _, ?_⟩
    constructor
    · intro hc
      exact absurd hc (lt_irrefl t)
    · rintro ⟨m0, hm0, _⟩
      exact Option.noConfusion hm0
  · have hmem : m0 ∈ cs := List.maximum_mem hmax
    have hle : m0 ≤ t := by
      rw [hsum]
      exact List.single_le_sum hnn m0 hmem
    simp only [MAX_SINGLE_POST_CONTRIBUTION] at *
    by_cases hlt : t * (1/4) < m0
    · rw [if_pos hlt]
      refine ⟨?_, by linarith, ?_⟩
      · rw [abs_of_nonneg ht,
          abs_of_nonneg (show (0:ℝ) ≤ t - (m0 - t * (1/4)) by linarith)]
        linarith
      constructor
      · intro _
        exact ⟨m0, rfl, hlt⟩
      · intro _
        linarith
    · rw [if_neg hlt]
      refine ⟨le_refl _, le_refl _, ?_⟩
      constructor
      · intro hc
        exact absurd hc (lt_irrefl t)
      · rintro ⟨m1, hm1, h1⟩
        cases Option.some.inj hm1
        exact absurd h1 hlt

/-- A mention scoring exactly 10 points: title hit, engagement score 0, no
comments, weight-1 subreddit, created at `now`, neutral, confidence 1. -/
noncomputable def c7Mention : Mention where
  id := "w7"
  subreddit := "baseball"
  type := "title"
  title := ""
  text := ""
  score := 0
  num_comments := 0
  created_utc := 0
  url := ""
  sentiment := "neutral"
  confidence := 1

/-- C7 witness: the amended mention-cap statement at the concrete run
`calculate_raw_buzz 0 [c7Mention] = some ([10], 10)`. -/
theorem c7_mention_cap_witness :
    |applyMentionCap [10] 10| ≤ |(10 : ℝ)| ∧ applyMentionCap [10] 10 ≤ 10 ∧
      (applyMentionCap [10] 10 < 10 ↔
        ∃ m0, ([10] : List ℝ).maximum = some m0 ∧
          10 * MAX_SINGLE_POST_CONTRIBUTION < m0) :=
  c7_mention_cap_amended 0 [c7Mention] [10] 10
    (by
      intro m hm
      rw [List.mem_singleton] at hm
      rw [hm]
      norm_num [c7Mention])
    (by
      simp only [calculate_raw_buzz, mentionContribution, c7Mention, log10, mentionDecay,
        mentionDaysOld, basePoints, SUBREDDITS_get, sentimentMod, DECAY_LAMBDA]
      norm_num [Real.exp_zero, Real.log_one]
      simp)

/-- A neutral article published at `now` (contribution 2.4 pre-cap). -/
noncomputable def c7NeutralArticle : NewsArticle where
  title := "n"
  url := ""
  source := ""
  published_at := ""
  published_ts := 2592000
  description := ""
  sentiment := "neutral"

/-- A negative article published at `now` (contribution -8 pre-cap). -/
noncomputable def c7NegativeArticle : NewsArticle where
  title := "b"
  url := ""
  source := ""
  published_at := ""
  published_ts := 2592000
  description := ""
  sentiment := "negative"

/-- Six neutral articles and one negative one, all published at `now`. -/
noncomputable def c7Articles : List NewsArticle :=
  [c7NeutralArticle, c7NeutralArticle, c7NeutralArticle, c7NeutralArticle,
   c7NeutralArticle, c7NeutralArticle, c7NegativeArticle]

/-- C7 counterexample: on `c7Articles` the pre-cap news aggregate is 6.4 but
the capped aggregate is 8 — news capping INCREASED the magnitude of the raw
aggregate, refuting the claim's "never increases" for the news path. -/
theorem c7_news_cap_increases_cex :
    (newsPass1 2592000 c7Articles).2 = 32/5 ∧
      (calculate_news_contribution 2592000 c7Articles).2 = 8 ∧
      ¬ (|(calculate_news_contribution 2592000 c7Articles).2| ≤
          |(newsPass1 2592000 c7Articles).2|) := by
  have h1 : (newsPass1 2592000 c7Articles).2 = 32/5 := by
    simp only [newsPass1, c7Articles, c7NeutralArticle, c7NegativeArticle, newsContribution1,
      newsDaysOld, newsSentimentMod, cutoff30, NEWS_BASE_POINTS, NEWS_SENTIMENT_NEUTRAL,
      NEWS_SENTIMENT_NEGATIVE, NEWS_SENTIMENT_POSITIVE, DECAY_LAMBDA]
    norm_num [Real.exp_zero, abs_div]
    simp
    norm_num
  have h2 : (calculate_news_contribution 2592000 c7Articles).2 = 8 := by
    simp only [calculate_news_contribution, newsPass1, newsCapLoop, c7Articles,
      c7NeutralArticle, c7NegativeArticle, newsContribution1, newsDaysOld, newsSentimentMod,
      cutoff30, NEWS_BASE_POINTS, NEWS_SENTIMENT_NEUTRAL, NEWS_SENTIMENT_NEGATIVE,
      NEWS_SENTIMENT_POSITIVE, DECAY_LAMBDA, MAX_SINGLE_NEWS_CONTRIBUTION]
    norm_num [Real.exp_zero, abs_div]
    simp
    norm_num [newsCapLoop, abs_div]
  refine ⟨h1, h2, ?_⟩
  rw [h1, h2]
  norm_num [abs_div]

/-! ## Claim C2: bounds of the final buzz score -/

theorem roundHalfEven_abs_sub_le (y : ℝ) : |(roundHalfEven y : ℝ) - y| ≤ 1/2 := by
  have hfl : (⌊y⌋ : ℝ) ≤ y := Int.floor_le y
  have hfu : y < (⌊y⌋ : ℝ) + 1 := Int.lt_floor_add_one y
  rw [roundHalfEven]
  split_ifs with h1 h2 h3
  · rw [abs_le]
    constructor <;> linarith
  · rw [abs_le]
    constructor <;> linarith
  · rw [abs_le]
    push_cast
    constructor <;> linarith
  · have h1' : 1/2 < y - (⌊y⌋ : ℝ) := lt_of_le_of_ne (not_lt.mp h1) (Ne.symm h2)
    rw [abs_le]
    push_cast
    constructor <;> linarith

theorem pyRound_nonneg {x : ℝ} (n : ℕ) (h0 : 0 ≤ x) : 0 ≤ pyRound x n := by
  have h := roundHalfEven_abs_sub_le (x * 10 ^ n)
  rw [abs_le] at h
  have hp : (0:ℝ) < 10 ^ n := by positivity
  have hy : 0 ≤ x * 10 ^ n := by positivity
  have hz : 0 ≤ roundHalfEven (x * 10 ^ n) := by
    by_contra hc
    push_neg at hc
    have hc1 : roundHalfEven (x * 10 ^ n) ≤ -1 := by omega
    have hc2 : (roundHalfEven (x * 10 ^ n) : ℝ) ≤ -1 := by exact_mod_cast hc1
    linarith
  have hz' : (0:ℝ) ≤ (roundHalfEven (x * 10 ^ n) : ℝ) := by exact_mod_cast hz
  rw [pyRound]
  positivity

theorem pyRound_le_100 {x : ℝ} (n : ℕ) (h1 : x ≤ 100) : pyRound x n ≤ 100 := by
  have h := roundHalfEven_abs_sub_le (x * 10 ^ n)
  rw [abs_le] at h
  have hp : (0:ℝ) < 10 ^ n := by positivity
  have hy : x * 10 ^ n ≤ 100 * 10 ^ n := mul_le_mul_of_nonneg_right h1 hp.le
  have hr : (roundHalfEven (x * 10 ^ n) : ℝ) < ((100 * 10 ^ n : ℤ) : ℝ) + 1 := by
    push_cast
    linarith
  have hint : roundHalfEven (x * 10 ^ n) ≤ 100 * 10 ^ n :=
    Int.lt_add_one_iff.mp (by exact_mod_cast hr)
  rw [pyRound, div_le_iff hp]
  calc (roundHalfEven (x * 10 ^ n) : ℝ) ≤ ((100 * 10 ^ n : ℤ) : ℝ) := by exact_mod_cast hint
    _ = 100 * 10 ^ n := by push_cast; ring

/-- C2 amended: every produced ScoreResult has `buzz_score ≤ 100`, and
`0 ≤ buzz_score` holds whenever a (truthy) peer batch was supplied; on the
no-peer-batch fallback the lower bound fails (see the counterexample). -/
theorem c2_bounds_amended (prospect : Prospect) (mentions : List Mention)
    (allScores : Option (List ℝ)) (newsArticles : List NewsArticle) (now : ℚ)
    (r : BuzzResult)
    (h : calculate_buzz_result prospect mentions allScores newsArticles now = some r) :
    r.buzz_score ≤ 100 ∧ (pyTruthy allScores = true → 0 ≤ r.buzz_score) := by
  simp only [calculate_buzz_result] at h
  rcases hrb : calculate_raw_buzz now
      (mentions.filter fun m => cutoff30 now ≤ (m.created_utc : ℚ)) with _ | ⟨cs, t⟩
  · rw [hrb] at h
    simp at h
  · rw [hrb] at h
    simp only [Option.some.injEq] at h
    subst h
    dsimp only
    by_cases hp : pyTruthy allScores = true
    · rw [if_pos hp]
      refine ⟨pyRound_le_100 1 (normalize_score_le_100 _ _), fun _ => ?_⟩
      exact pyRound_nonneg 1 (normalize_score_nonneg _ _)
    · rw [if_neg hp]
      refine ⟨pyRound_le_100 1 (min_le_left _ _), fun hc => absurd hc hp⟩

/-- A prospect record used by the concrete evaluations. -/
noncomputable def c2Prospect : Prospect where
  id := "p2"
  first_name := "A"
  last_name := "B"
  team := "T"

/-- A negative article published at `now`. -/
noncomputable def c2NegArticle : NewsArticle where
  title := "b"
  url := ""
  source := ""
  published_at := ""
  published_ts := 2592000
  description := ""
  sentiment := "negative"

/-- The ScoreResult produced for `c2Prospect` with no items and the peer batch
`[1, 2]`. -/
noncomputable def c2wResult : BuzzResult where
  prospect_id := "p2"
  name := "A B"
  team := "T"
  buzz_score := 0
  raw_buzz := 0
  mention_count_7d := 0
  mention_count_30d := 0
  days_with_mentions := 0
  negative_ratio := 0
  mentions := []
  news_articles := []
  last_updated := 2592000

/-- C2 witness: the amended bound statement at a concrete run whose peer batch
`[1, 2]` is truthy. -/
theorem c2_bounds_witness :
    c2wResult.buzz_score ≤ 100 ∧
      (pyTruthy (some [1, 2]) = true → 0 ≤ c2wResult.buzz_score) :=
  c2_bounds_amended c2Prospect [] (some [1, 2]) [] 2592000 c2wResult (by
    have hnorm : normalize_score 0 [1, 2] = 0 := by
      simp only [normalize_score, List.insertionSort, List.orderedInsert]
      norm_num
    have hnews0 : calculate_news_contribution 2592000 [] = ([], 0) := by
      simp [calculate_news_contribution, newsPass1]
    have hcap0 : applyMentionCap [] 0 = 0 := rfl
    simp only [calculate_buzz_result, List.filter_nil, calculate_raw_buzz, hnews0, hcap0,
      pyTruthy, c2Prospect, c2wResult]
    norm_num [hnorm, pyRound, roundHalfEven, c2wResult, c2Prospect]
    rfl)

/-- C2 counterexample: with no peer batch and two negative news articles, the
produced buzz score is -4, violating `0 ≤ buzz_score`. -/
theorem c2_fallback_negative_cex :
    (calculate_buzz_result c2Prospect [] none [c2NegArticle, c2NegArticle] 2592000).map
        BuzzResult.buzz_score = some (-4) ∧ ¬ (0 ≤ (-4 : ℝ)) := by
  have hnews : (calculate_news_contribution 2592000 [c2NegArticle, c2NegArticle]).2 = -8 := by
    simp only [calculate_news_contribution, newsPass1, newsCapLoop, newsContribution1,
      newsDaysOld, newsSentimentMod, cutoff30, c2NegArticle, NEWS_BASE_POINTS,
      NEWS_SENTIMENT_NEGATIVE, NEWS_SENTIMENT_POSITIVE, NEWS_SENTIMENT_NEUTRAL,
      DECAY_LAMBDA, MAX_SINGLE_NEWS_CONTRIBUTION]
    norm_num [Real.exp_zero, abs_div]
    simp
    norm_num [newsCapLoop, abs_div]
  constructor
  · simp only [calculate_buzz_result, List.filter_nil, calculate_raw_buzz, hnews, pyTruthy,
      Option.map_some']
    have hcap : applyMentionCap [] 0 = 0 := rfl
    rw [hcap]
    norm_num [pyRound, roundHalfEven]
  · norm_num

/-! ## Claim C3: the two passes of the batch protocol disagree -/

/-- A prospect record for the C3 evaluations. -/
noncomputable def c3Prospect : Prospect where
  id := "p3"
  first_name := "C"
  last_name := "D"
  team := "T"

/-- A mention scoring exactly 10 points, created at `now = 2592000`. -/
noncomputable def c3Mention : Mention where
  id := "m3"
  subreddit := "baseball"
  type := "title"
  title := ""
  text := ""
  score := 0
  num_comments := 0
  created_utc := 2592000
  url := ""
  sentiment := "neutral"
  confidence := 1

/-- C3 counterexample: on a single 10-point mention, pass 1 collects raw score
10 into the peer batch while pass 2 (which alone applies the mention cap)
records raw_total 2.5 — the two passes do not use identical capping logic. -/
theorem c3_pass_mismatch_cex :
    pass1Raw 2592000 [c3Mention] [] = some 10 ∧
      (calculate_buzz_result c3Prospect [c3Mention] none [] 2592000).map
        BuzzResult.raw_buzz = some (5/2) ∧ ((10 : ℝ) ≠ 5/2) := by
  have hraw : calculate_raw_buzz 2592000 [c3Mention] = some ([10], 10) := by
    simp only [calculate_raw_buzz, mentionContribution, c3Mention, log10, mentionDecay,
      mentionDaysOld, basePoints, SUBREDDITS_get, sentimentMod, DECAY_LAMBDA]
    norm_num [Real.exp_zero, Real.log_one]
    simp
  have hnews : calculate_news_contribution 2592000 [] = ([], 0) := by
    simp [calculate_news_contribution, newsPass1]
  refine ⟨?_, ?_, by norm_num⟩
  · simp only [pass1Raw, hraw, hnews]
    norm_num
  · have hfilt : ([c3Mention].filter fun m => cutoff30 2592000 ≤ (m.created_utc : ℚ)) =
        [c3Mention] := by
      simp [c3Mention, cutoff30]
    simp only [calculate_buzz_result, hfilt, hraw, hnews, Option.map_some']
    have hcap : applyMentionCap [10] 10 = 5/2 := by
      simp only [applyMentionCap, List.maximum_singleton, MAX_SINGLE_POST_CONTRIBUTION]
      norm_num
    rw [hcap]
    norm_num [pyRound, roundHalfEven]

/-- C3 amended: the two passes agree exactly when every mention lies inside
the 30-day window and the mention cap does not fire (in particular the
recomputation itself is deterministic with `now` held fixed); in general
pass 1 applies neither the window filter nor the mention cap, so the peer
batch and the recomputed raw_total can differ. -/
theorem c3_passes_agree_amended (now : ℚ) (prospect : Prospect) (ms : List Mention)
    (allScores : Option (List ℝ)) (news : List NewsArticle) (cs : List ℝ) (t : ℝ)
    (hwin : ∀ m ∈ ms, cutoff30 now ≤ (m.created_utc : ℚ))
    (h : calculate_raw_buzz now ms = some (cs, t))
    (hcap : ∀ m0, cs.maximum = some m0 → m0 ≤ t * MAX_SINGLE_POST_CONTRIBUTION) :
    pass1Raw now ms news = some (t + (calculate_news_contribution now news).2) ∧
      (calculate_buzz_result prospect ms allScores news now).map BuzzResult.raw_buzz =
        some (pyRound (t + (calculate_news_contribution now news).2) 2) := by
  have hfilt : (ms.filter fun m => cutoff30 now ≤ (m.created_utc : ℚ)) = ms :=
    List.filter_eq_self.mpr (fun m hm => by
      simpa using hwin m hm)
  have hcap' : applyMentionCap cs t = t := by
    unfold applyMentionCap
    rcases hmax : cs.maximum with _ | m0
    · rfl
    · exact if_neg (not_lt.mpr (hcap m0 hmax))
  constructor
  · simp only [pass1Raw, h]
  · simp only [calculate_buzz_result, hfilt, h, hcap', Option.map_some']

/-- C3 witness: the amended statement at the empty mention list. -/
theorem c3_passes_agree_witness :
    pass1Raw 2592000 ([] : List Mention) [] =
        some (0 + (calculate_news_contribution 2592000 []).2) ∧
      (calculate_buzz_result c3Prospect [] none [] 2592000).map BuzzResult.raw_buzz =
        some (pyRound (0 + (calculate_news_contribution 2592000 []).2) 2) :=
  c3_passes_agree_amended 2592000 c3Prospect [] none [] [] 0
    (by intro m hm; exact absurd hm (List.not_mem_nil m))
    (by rfl)
    (by
      intro m0 hm0
      rw [List.maximum_nil] at hm0
      exact absurd hm0 (by simp))

/-! ## Claim C10: the empty peer list selects the heuristic fallback -/

/-- A prospect record for the C10 evaluation. -/
noncomputable def c10Prospect : Prospect where
  id := "pX"
  first_name := "E"
  last_name := "F"
  team := "T"

/-- A negative article published at `now`. -/
noncomputable def c10NegArticle : NewsArticle where
  title := "b"
  url := ""
  source := ""
  published_at := ""
  published_ts := 2592000
  description := ""
  sentiment := "negative"

/-- C10: an empty peer-score list behaves exactly like a missing peer batch —
both are falsy, so the `min(100, raw_total / 2)` heuristic runs — and on that
path the produced buzz score can be negative (here -1). -/
theorem c10_empty_peer_list_fallback :
    (∀ (prospect : Prospect) (ms : List Mention) (news : List NewsArticle) (now : ℚ),
        calculate_buzz_result prospect ms (some []) news now =
          calculate_buzz_result prospect ms none news now) ∧
      (calculate_buzz_result c10Prospect [] (some []) [c10NegArticle] 2592000).map
          BuzzResult.buzz_score = some (-1) ∧ ((-1 : ℝ) < 0) := by
  refine ⟨?_, ?_, by norm_num⟩
  · intro prospect ms news now
    simp [calculate_buzz_result, pyTruthy]
  · have hnews : (calculate_news_contribution 2592000 [c10NegArticle]).2 = -2 := by
      simp only [calculate_news_contribution, newsPass1, newsCapLoop, newsContribution1,
        newsDaysOld, newsSentimentMod, cutoff30, c10NegArticle, NEWS_BASE_POINTS,
        NEWS_SENTIMENT_NEGATIVE, NEWS_SENTIMENT_POSITIVE, NEWS_SENTIMENT_NEUTRAL,
        DECAY_LAMBDA, MAX_SINGLE_NEWS_CONTRIBUTION]
      norm_num [Real.exp_zero, abs_div]
      simp
      norm_num [newsCapLoop, abs_div]
    simp only [calculate_buzz_result, List.filter_nil, calculate_raw_buzz, hnews, pyTruthy,
      Option.map_some']
    have hcap : applyMentionCap [] 0 = 0 := rfl
    rw [hcap]
    norm_num [pyRound, roundHalfEven]

end BuzzScraper
